import Mathlib

/-
Verification of the todos-api service (main.go, models.Todo).

Shallow embedding notes.

* `Todo` mirrors `models.Todo`: `ID uint`, `CreatedAt`/`UpdatedAt time.Time`
  (modelled as `Nat`, `0` playing the role of the Go zero time),
  `DeletedAt gorm.DeletedAt` (an `Option Nat`, `none` = NULL), plus
  `Title`, `Description`, `Completed`.
* The persistent store is the physical table: a `List Todo`.  Soft-deleted
  rows stay in the list with `deletedAt = some _`.
* The ORM calls are embedded with their documented semantics:
  `DB.Find` and `DB.First` see only rows with `deleted_at IS NULL`;
  `DB.Delete` is the soft delete `UPDATE .. SET deleted_at = now WHERE id = ?
  AND deleted_at IS NULL` and reports the number of affected rows;
  `DB.Model(&e).Updates(p)` assigns the non-zero-valued fields of the struct
  `p` (plus `updated_at := now`) to the row whose primary key is `e`'s, with
  the non-zero primary key of `p` joining the WHERE clause rather than the
  SET clause; `DB.Create` inserts, letting SQLite assign `max id + 1` when
  the struct's id is zero and failing on a primary-key collision.
* Request bodies decode as Go's encoding/json into a zero-valued struct:
  an absent field keeps the zero value, so a decoded body is a `TodoBody`
  of optional fields plus the function `decodeTodo` collapsing it.
  `DeletedAt` is tagged `json:"-"` and never decoded.
* Opaque storage failures (the `result.Error != nil` branches that are not
  `ErrRecordNotFound`) are injected through explicit `fault` flags, one per
  database call a handler makes.
* Wall-clock time is passed to each handler as `now : Nat`; real time
  strictly advances between requests, which claims about `updated_at` take
  as a hypothesis.
-/

structure Todo where
  id : Nat
  createdAt : Nat
  updatedAt : Nat
  deletedAt : Option Nat
  title : String
  description : String
  completed : Bool
  deriving DecidableEq, Repr

/-- Primitive JSON values used by the wire model. -/
inductive JsonVal where
  | num : Nat → JsonVal
  | str : String → JsonVal
  | bool : Bool → JsonVal
  deriving DecidableEq, Repr

/-- JSON documents appearing in responses. -/
inductive Json where
  | obj : List (String × JsonVal) → Json
  | arr : List Json → Json
  | empty : Json

/-- Serialization of one `models.Todo`, following the struct's json tags in
order: `id`, `created_at`, `updated_at`, `title`, `description`,
`completed`.  `DeletedAt` carries the tag `json:"-"` and is not emitted. -/
def todoJSON (t : Todo) : List (String × JsonVal) :=
  [("id", JsonVal.num t.id),
   ("created_at", JsonVal.num t.createdAt),
   ("updated_at", JsonVal.num t.updatedAt),
   ("title", JsonVal.str t.title),
   ("description", JsonVal.str t.description),
   ("completed", JsonVal.bool t.completed)]

/-- Abstract response bodies produced by the handlers. -/
inductive RespBody where
  | empty : RespBody
  | item : Todo → RespBody
  | items : List Todo → RespBody
  | err : String → RespBody
  deriving DecidableEq, Repr

/-- Rendering of a response body to wire JSON: todo items go through
`todoJSON`, error bodies are the `iris.Map` with one `error` key, and 204
responses have no body. -/
def renderBody : RespBody → Json
  | RespBody.empty => Json.empty
  | RespBody.item t => Json.obj (todoJSON t)
  | RespBody.items l => Json.arr (l.map (fun t => Json.obj (todoJSON t)))
  | RespBody.err m => Json.obj [("error", JsonVal.str m)]

structure Resp where
  status : Nat
  body : RespBody
  deriving DecidableEq, Repr

/-- Errors surfaced by the embedded ORM calls: `notFound` is
`gorm.ErrRecordNotFound`, `failure` any other storage error. -/
inductive DBErr where
  | notFound : DBErr
  | failure : DBErr
  deriving DecidableEq, Repr

/-- A decoded JSON request body, remembering which of the todo fields the
client supplied.  (`deleted_at` has the json tag `-` and can never be
supplied.) -/
structure TodoBody where
  id? : Option Nat := none
  createdAt? : Option Nat := none
  updatedAt? : Option Nat := none
  title? : Option String := none
  description? : Option String := none
  completed? : Option Bool := none
  deriving DecidableEq, Repr

/-- Go's `json.Unmarshal` into a zero-valued `models.Todo`: a field absent
from the body keeps its zero value, so supplying a zero value is
indistinguishable from omitting the field. -/
def decodeTodo (b : TodoBody) : Todo :=
  { id := b.id?.getD 0,
    createdAt := b.createdAt?.getD 0,
    updatedAt := b.updatedAt?.getD 0,
    deletedAt := none,
    title := b.title?.getD "",
    description := b.description?.getD "",
    completed := b.completed?.getD false }

/-- The row predicate of every soft-delete-scoped primary-key query:
`id = ? AND deleted_at IS NULL`. -/
def matchesID (id : Nat) (r : Todo) : Bool :=
  r.id == id && r.deletedAt.isNone

/-- The row returned by `DB.First(&todo, id)` when one exists. -/
def findByID (rows : List Todo) (id : Nat) : Option Todo :=
  rows.find? (matchesID id)

/-- `DB.First(&todo, id)` with an injected opaque-failure flag. -/
def gormFirst (fault : Bool) (rows : List Todo) (id : Nat) : Except DBErr Todo :=
  if fault then Except.error DBErr.failure
  else
    match findByID rows id with
    | some t => Except.ok t
    | none => Except.error DBErr.notFound

/-- `DB.Find(&todos)`: all rows the soft-delete scope exposes. -/
def listedTodos (rows : List Todo) : List Todo :=
  rows.filter (fun r => r.deletedAt.isNone)

/-- SQLite's id assignment for an INSERT whose integer primary key is
unset: one more than the largest rowid, soft-deleted rows included. -/
def nextId (rows : List Todo) : Nat :=
  (rows.map Todo.id).foldr max 0 + 1

/-- The SET clause `gorm`'s `Updates` builds from a struct argument: each
non-zero-valued updatable field of the struct is assigned, and the
`updated_at` auto-update column is always refreshed to `now`. -/
def applyUpdates (patch : Todo) (now : Nat) (r : Todo) : Todo :=
  { r with
    createdAt := if patch.createdAt ≠ 0 then patch.createdAt else r.createdAt,
    updatedAt := now,
    title := if patch.title ≠ "" then patch.title else r.title,
    description := if patch.description ≠ "" then patch.description else r.description,
    completed := if patch.completed then patch.completed else r.completed }

/-- `DB.Model(&existing).Updates(patch)`: the WHERE clause is `existing`'s
primary key plus the soft-delete scope, and a non-zero primary key inside
the `patch` struct joins the WHERE clause as a further condition (it is
never assigned). -/
def gormUpdates (rows : List Todo) (targetId : Nat) (patch : Todo) (now : Nat) :
    List Todo :=
  if patch.id = 0 ∨ patch.id = targetId then
    rows.map (fun r =>
      if r.id = targetId ∧ r.deletedAt = none then applyUpdates patch now r else r)
  else rows

/-- `DB.Delete(&models.Todo{}, id)` on a soft-deletable model:
`UPDATE todos SET deleted_at = now WHERE id = ? AND deleted_at IS NULL`. -/
def softDelete (rows : List Todo) (id : Nat) (now : Nat) : List Todo :=
  rows.map (fun r =>
    if r.id = id ∧ r.deletedAt = none then { r with deletedAt := some now } else r)

/-- `result.RowsAffected` of the soft delete above. -/
def rowsAffected (rows : List Todo) (id : Nat) : Nat :=
  rows.countP (matchesID id)

/-- Handler `CreateTodo` (POST /todos).  `body = none` is a request whose
JSON fails to decode.  `fault` injects a storage failure of `DB.Create`;
inserting a client-supplied id that collides with an existing row is also a
`result.Error` and lands in the same 500 branch. -/
def CreateTodo (rows : List Todo) (now : Nat) (body : Option TodoBody)
    (fault : Bool) : Resp × List Todo :=
  match body with
  | none => (⟨400, RespBody.err "Invalid input data: unmarshal failed"⟩, rows)
  | some b =>
    let newTodo := decodeTodo b
    let assignedId := if newTodo.id = 0 then nextId rows else newTodo.id
    if fault ∨ assignedId ∈ rows.map Todo.id then
      (⟨500, RespBody.err "Failed to create Todo item in database."⟩, rows)
    else
      let created := { newTodo with
        id := assignedId,
        createdAt := if newTodo.createdAt = 0 then now else newTodo.createdAt,
        updatedAt := if newTodo.updatedAt = 0 then now else newTodo.updatedAt }
      (⟨201, RespBody.item created⟩, rows ++ [created])

/-- Handler `GetTodos` (GET /todos). -/
def GetTodos (rows : List Todo) (fault : Bool) : Resp × List Todo :=
  if fault then
    (⟨500, RespBody.err "Failed to retrieve Todos from database."⟩, rows)
  else
    (⟨200, RespBody.items (listedTodos rows)⟩, rows)

/-- Handler `GetTodoByID` (GET /todos/:id). -/
def GetTodoByID (rows : List Todo) (id : Nat) (fault : Bool) : Resp × List Todo :=
  match gormFirst fault rows id with
  | Except.error DBErr.notFound => (⟨404, RespBody.err "Todo item not found."⟩, rows)
  | Except.error DBErr.failure =>
    (⟨500, RespBody.err "Failed to retrieve Todo item from database."⟩, rows)
  | Except.ok t => (⟨200, RespBody.item t⟩, rows)

/-- Handler `UpdateTodo` (PUT /todos/:id).  `fault1` is a storage failure of
the initial `DB.First`, `faultU` of the `Updates` statement (whose result
the handler never checks), `fault2` of the re-fetch (likewise unchecked; on
a failed re-fetch `existingTodo` keeps the value of the first fetch and is
serialized as-is). -/
def UpdateTodo (rows : List Todo) (now : Nat) (id : Nat) (body : Option TodoBody)
    (fault1 faultU fault2 : Bool) : Resp × List Todo :=
  match gormFirst fault1 rows id with
  | Except.error DBErr.notFound => (⟨404, RespBody.err "Todo item not found."⟩, rows)
  | Except.error DBErr.failure =>
    (⟨500, RespBody.err "Database error while fetching item."⟩, rows)
  | Except.ok existing =>
    match body with
    | none => (⟨400, RespBody.err "Invalid input data."⟩, rows)
    | some b =>
      let patch := decodeTodo b
      let rows2 := if faultU then rows else gormUpdates rows existing.id patch now
      let shown :=
        match gormFirst fault2 rows2 id with
        | Except.ok t => t
        | Except.error _ => existing
      (⟨200, RespBody.item shown⟩, rows2)

/-- Handler `DeleteTodo` (DELETE /todos/:id). -/
def DeleteTodo (rows : List Todo) (now : Nat) (id : Nat) (fault : Bool) :
    Resp × List Todo :=
  if fault then
    (⟨500, RespBody.err "Failed to delete Todo item from database."⟩, rows)
  else if rowsAffected rows id = 0 then
    (⟨404, RespBody.err "Todo item not found."⟩, rows)
  else
    (⟨204, RespBody.empty⟩, softDelete rows id now)

/-- Well-formedness of a table state: primary keys are unique.  Every state
SQLite can reach satisfies it (`id` is the INTEGER PRIMARY KEY). -/
def uniqueIds (rows : List Todo) : Prop :=
  (rows.map Todo.id).Nodup

instance (rows : List Todo) : Decidable (uniqueIds rows) := by
  unfold uniqueIds; infer_instance

/-- Concrete rows used to instantiate hypotheses: a live row. -/
def todoA : Todo :=
  { id := 1, createdAt := 1, updatedAt := 1, deletedAt := none,
    title := "a", description := "d", completed := true }

/-- Concrete rows used to instantiate hypotheses: a soft-deleted row. -/
def todoB : Todo :=
  { id := 2, createdAt := 1, updatedAt := 1, deletedAt := some 3,
    title := "b", description := "e", completed := false }

def demoRows : List Todo := [todoA, todoB]

/-! Shared lemmas about the embedded store operations. -/

theorem matchesID_eq_true (id : Nat) (r : Todo) :
    matchesID id r = true ↔ r.id = id ∧ r.deletedAt = none := by
  simp [matchesID, Option.isNone_iff_eq_none]

theorem findByID_mem {rows : List Todo} {id : Nat} {t : Todo}
    (h : findByID rows id = some t) : t ∈ rows ∧ t.id = id ∧ t.deletedAt = none :=
  ⟨List.mem_of_find?_eq_some h, (matchesID_eq_true id t).mp (List.find?_some h)⟩

theorem findByID_eq_none_iff {rows : List Todo} {id : Nat} :
    findByID rows id = none ↔ ∀ r ∈ rows, ¬(r.id = id ∧ r.deletedAt = none) := by
  unfold findByID
  rw [List.find?_eq_none]
  constructor
  · intro h r hr hc
    exact h r hr ((matchesID_eq_true id r).mpr hc)
  · intro h r hr hp
    exact h r hr ((matchesID_eq_true id r).mp hp)

theorem mem_eq_of_uniqueIds {rows : List Todo} (hu : uniqueIds rows) {r s : Todo}
    (hr : r ∈ rows) (hs : s ∈ rows) (hid : r.id = s.id) : r = s :=
  List.inj_on_of_nodup_map hu hr hs hid

theorem findByID_of_mem_live {rows : List Todo} (hu : uniqueIds rows) {r : Todo}
    (hr : r ∈ rows) (hlive : r.deletedAt = none) : findByID rows r.id = some r := by
  cases h : findByID rows r.id with
  | none => exact absurd ⟨rfl, hlive⟩ (findByID_eq_none_iff.mp h r hr)
  | some t =>
    obtain ⟨ht, hid, _⟩ := findByID_mem h
    exact congrArg some (mem_eq_of_uniqueIds hu ht hr hid)

theorem findByID_none_of_deleted {rows : List Todo} (hu : uniqueIds rows) {r : Todo}
    {d : Nat} (hr : r ∈ rows) (hd : r.deletedAt = some d) :
    findByID rows r.id = none := by
  rw [findByID_eq_none_iff]
  rintro x hx ⟨hxid, hxlive⟩
  have hxr : x = r := mem_eq_of_uniqueIds hu hx hr hxid
  rw [hxr, hd] at hxlive
  exact Option.noConfusion hxlive

theorem findByID_map_preserving (f : Todo → Todo)
    (hid : ∀ r, (f r).id = r.id) (hdel : ∀ r, (f r).deletedAt = r.deletedAt)
    (rows : List Todo) (id : Nat) :
    findByID (rows.map f) id = (findByID rows id).map f := by
  induction rows with
  | nil => rfl
  | cons a l ih =>
    have hm : matchesID id (f a) = matchesID id a := by
      simp [matchesID, hid a, hdel a]
    unfold findByID at ih ⊢
    rw [List.map_cons]
    by_cases h : matchesID id a = true
    · rw [List.find?_cons_of_pos _ (by rw [hm]; exact h), List.find?_cons_of_pos _ h]
      rfl
    · rw [List.find?_cons_of_neg _ (by rw [hm]; exact h), List.find?_cons_of_neg _ h]
      exact ih

theorem gormUpdates_findByID (rows : List Todo) (targetId : Nat) (patch : Todo)
    (now : Nat) (hpid : patch.id = 0 ∨ patch.id = targetId) (id : Nat) :
    findByID (gormUpdates rows targetId patch now) id =
      (findByID rows id).map (fun r =>
        if r.id = targetId ∧ r.deletedAt = none then applyUpdates patch now r else r) := by
  unfold gormUpdates
  rw [if_pos hpid]
  refine findByID_map_preserving _ (fun r => ?_) (fun r => ?_) rows id
  · by_cases h : r.id = targetId ∧ r.deletedAt = none
    · rw [if_pos h]; rfl
    · rw [if_neg h]
  · by_cases h : r.id = targetId ∧ r.deletedAt = none
    · rw [if_pos h]; rfl
    · rw [if_neg h]

theorem softDelete_not_matching (rows : List Todo) (id now : Nat) :
    ∀ x ∈ softDelete rows id now, ¬(x.id = id ∧ x.deletedAt = none) := by
  intro x hx
  unfold softDelete at hx
  obtain ⟨y, hy, rfl⟩ := List.mem_map.mp hx
  by_cases h : y.id = id ∧ y.deletedAt = none
  · rw [if_pos h]
    rintro ⟨_, hc⟩
    exact Option.noConfusion hc
  · rw [if_neg h]
    exact h

theorem rowsAffected_eq_zero_iff (rows : List Todo) (id : Nat) :
    rowsAffected rows id = 0 ↔ ∀ r ∈ rows, ¬(r.id = id ∧ r.deletedAt = none) := by
  unfold rowsAffected
  rw [List.countP_eq_zero]
  constructor
  · intro h r hr hc
    exact h r hr ((matchesID_eq_true id r).mpr hc)
  · intro h r hr hp
    exact h r hr ((matchesID_eq_true id r).mp hp)

theorem le_foldr_max (l : List Nat) : ∀ x ∈ l, x ≤ l.foldr max 0 := by
  induction l with
  | nil =>
    intro x hx
    exact absurd hx (List.not_mem_nil x)
  | cons a l ih =>
    intro x hx
    simp only [List.foldr_cons]
    rcases List.mem_cons.mp hx with rfl | hx
    · exact le_max_left _ _
    · exact le_trans (ih x hx) (le_max_right _ _)

theorem nextId_not_mem (rows : List Todo) : nextId rows ∉ rows.map Todo.id := by
  unfold nextId
  intro hmem
  have h := le_foldr_max (rows.map Todo.id) _ hmem
  omega

/-! Claim C1. -/

/-- Claim C1, counterexample: the update body supplies `completed: false` on a
record whose stored `completed` is `true`; because the handler's ORM call only
assigns non-zero-valued struct fields, the subsequent get-by-id still returns
`completed = true`, so a supplied field did not replace the stored value. -/
theorem C1_counterexample :
    todoA.completed = true
    ∧ ({ completed? := some false : TodoBody }).completed? = some false
    ∧ (GetTodoByID
        (UpdateTodo [todoA] 2 1 (some { completed? := some false }) false false false).snd
        1 false).fst
      = ⟨200, RespBody.item { todoA with updatedAt := 2 }⟩
    ∧ ({ todoA with updatedAt := 2 } : Todo).completed = true := by
  decide

/-- Claim C1 (amended): for every update on an existing id whose body decodes
and does not supply the id of a different record, a subsequent get-by-id
returns the merged record where every non-zero supplied field (non-empty
title or description, completed supplied as true) replaces the stored value,
while zero-valued or unsupplied fields keep their previous stored value, and
updated_at is refreshed to the request time, hence strictly increases
whenever the request time exceeds the stored updated_at. -/
theorem C1_update_merge (rows : List Todo) (id now : Nat) (b : TodoBody) (t : Todo)
    (hfound : findByID rows id = some t)
    (hbid : (decodeTodo b).id = 0 ∨ (decodeTodo b).id = id)
    (htime : t.updatedAt < now) :
    (UpdateTodo rows now id (some b) false false false).fst
        = ⟨200, RespBody.item (applyUpdates (decodeTodo b) now t)⟩
    ∧ (GetTodoByID (UpdateTodo rows now id (some b) false false false).snd id false).fst
        = ⟨200, RespBody.item (applyUpdates (decodeTodo b) now t)⟩
    ∧ (∀ s, b.title? = some s → s ≠ "" → (applyUpdates (decodeTodo b) now t).title = s)
    ∧ (b.title? = none ∨ b.title? = some "" →
        (applyUpdates (decodeTodo b) now t).title = t.title)
    ∧ (∀ s, b.description? = some s → s ≠ "" →
        (applyUpdates (decodeTodo b) now t).description = s)
    ∧ (b.description? = none ∨ b.description? = some "" →
        (applyUpdates (decodeTodo b) now t).description = t.description)
    ∧ (b.completed? = some true → (applyUpdates (decodeTodo b) now t).completed = true)
    ∧ (b.completed? = none ∨ b.completed? = some false →
        (applyUpdates (decodeTodo b) now t).completed = t.completed)
    ∧ (applyUpdates (decodeTodo b) now t).id = t.id
    ∧ t.updatedAt < (applyUpdates (decodeTodo b) now t).updatedAt := by
  obtain ⟨htmem, htid, htlive⟩ := findByID_mem hfound
  have hbid2 : (decodeTodo b).id = 0 ∨ (decodeTodo b).id = t.id := by
    rw [htid]; exact hbid
  have hgf : gormFirst false rows id = Except.ok t := by
    unfold gormFirst; rw [hfound]; rfl
  have hfind2 : findByID (gormUpdates rows t.id (decodeTodo b) now) id
      = some (applyUpdates (decodeTodo b) now t) := by
    rw [gormUpdates_findByID rows t.id (decodeTodo b) now hbid2 id, hfound,
        Option.map_some', if_pos ⟨rfl, htlive⟩]
  have hgf2 : gormFirst false (gormUpdates rows t.id (decodeTodo b) now) id
      = Except.ok (applyUpdates (decodeTodo b) now t) := by
    unfold gormFirst; rw [hfind2]; rfl
  have hup : UpdateTodo rows now id (some b) false false false
      = (⟨200, RespBody.item (applyUpdates (decodeTodo b) now t)⟩,
         gormUpdates rows t.id (decodeTodo b) now) := by
    simp [UpdateTodo, hgf, hgf2]
  refine ⟨by rw [hup], ?_, ?_, ?_, ?_, ?_, ?_, ?_, rfl, htime⟩
  · rw [hup]
    simp [GetTodoByID, hgf2]
  · intro s hs hne
    simp [applyUpdates, decodeTodo, hs, hne]
  · rintro (h | h) <;> simp [applyUpdates, decodeTodo, h]
  · intro s hs hne
    simp [applyUpdates, decodeTodo, hs, hne]
  · rintro (h | h) <;> simp [applyUpdates, decodeTodo, h]
  · intro h
    simp [applyUpdates, decodeTodo, h]
  · rintro (h | h) <;> simp [applyUpdates, decodeTodo, h]

/-- Claim C1, witness: a concrete update of the record with id 1, supplying a
new title, merges as stated. -/
theorem C1_witness :
    (GetTodoByID
        (UpdateTodo [todoA] 2 1 (some { title? := some "z" }) false false false).snd
        1 false).fst
      = ⟨200, RespBody.item (applyUpdates (decodeTodo { title? := some "z" }) 2 todoA)⟩ :=
  (C1_update_merge [todoA] 1 2 { title? := some "z" } todoA (by decide)
    (Or.inl (by decide)) (by decide)).2.1

/-! Claim C2. -/

/-- Claim C2: in any store state with unique primary keys, a row whose
deletedAt is non-null never appears in the list result, get-by-id on its id
answers 404, update and delete on its id answer 404 and leave the store
unchanged, and the row itself stays in storage (the store is unchanged, so
membership is preserved). -/
theorem C2_soft_deleted_hidden (rows : List Todo) (r : Todo) (d now : Nat)
    (b : Option TodoBody) (hu : uniqueIds rows) (hr : r ∈ rows)
    (hd : r.deletedAt = some d) :
    r ∉ listedTodos rows
    ∧ (GetTodoByID rows r.id false).fst.status = 404
    ∧ (UpdateTodo rows now r.id b false false false).fst.status = 404
    ∧ (UpdateTodo rows now r.id b false false false).snd = rows
    ∧ (DeleteTodo rows now r.id false).fst.status = 404
    ∧ (DeleteTodo rows now r.id false).snd = rows := by
  have hnone : findByID rows r.id = none := findByID_none_of_deleted hu hr hd
  have hnotm : ∀ x ∈ rows, ¬(x.id = r.id ∧ x.deletedAt = none) :=
    findByID_eq_none_iff.mp hnone
  have hra : rowsAffected rows r.id = 0 := (rowsAffected_eq_zero_iff rows r.id).mpr hnotm
  refine ⟨?_, ?_, ?_, ?_, ?_, ?_⟩
  · intro hmem
    unfold listedTodos at hmem
    have h2 := (List.mem_filter.mp hmem).2
    simp [hd] at h2
  · simp [GetTodoByID, gormFirst, hnone]
  · simp [UpdateTodo, gormFirst, hnone]
  · simp [UpdateTodo, gormFirst, hnone]
  · simp [DeleteTodo, hra]
  · simp [DeleteTodo, hra]

/-- Claim C2, witness: the soft-deleted demo row (id 2, deletedAt 3) is hidden
from reads and treated as not-found by delete, while remaining stored. -/
theorem C2_witness :
    (GetTodoByID demoRows todoB.id false).fst.status = 404
    ∧ (DeleteTodo demoRows 7 todoB.id false).fst.status = 404
    ∧ (DeleteTodo demoRows 7 todoB.id false).snd = demoRows :=
  ⟨(C2_soft_deleted_hidden demoRows todoB 3 7 none (by decide) (by decide) rfl).2.1,
   (C2_soft_deleted_hidden demoRows todoB 3 7 none (by decide) (by decide) rfl).2.2.2.2.1,
   (C2_soft_deleted_hidden demoRows todoB 3 7 none (by decide) (by decide) rfl).2.2.2.2.2⟩

/-! Claim C3. -/

/-- Claim C3: deleting an existing non-deleted record answers 204 with an
empty body and soft-deletes the row; a storage failure answers 500; a second
delete of the same id answers 404 (zero rows affected), a subsequent
get-by-id answers 404, and the list result no longer contains that id. -/
theorem C3_delete_contract (rows : List Todo) (r : Todo) (now now2 : Nat)
    (hr : r ∈ rows) (hlive : r.deletedAt = none) :
    (DeleteTodo rows now r.id false).fst = ⟨204, RespBody.empty⟩
    ∧ (DeleteTodo rows now r.id false).snd = softDelete rows r.id now
    ∧ (DeleteTodo rows now r.id true).fst.status = 500
    ∧ (DeleteTodo (softDelete rows r.id now) now2 r.id false).fst.status = 404
    ∧ (GetTodoByID (softDelete rows r.id now) r.id false).fst.status = 404
    ∧ (∀ x ∈ listedTodos (softDelete rows r.id now), x.id ≠ r.id) := by
  have hra : ¬rowsAffected rows r.id = 0 := by
    intro h0
    exact (rowsAffected_eq_zero_iff rows r.id).mp h0 r hr ⟨rfl, hlive⟩
  have hnm := softDelete_not_matching rows r.id now
  have hra2 : rowsAffected (softDelete rows r.id now) r.id = 0 :=
    (rowsAffected_eq_zero_iff _ _).mpr hnm
  have hnone2 : findByID (softDelete rows r.id now) r.id = none :=
    findByID_eq_none_iff.mpr hnm
  refine ⟨?_, ?_, ?_, ?_, ?_, ?_⟩
  · simp [DeleteTodo, hra]
  · simp [DeleteTodo, hra]
  · simp [DeleteTodo]
  · simp [DeleteTodo, hra2]
  · simp [GetTodoByID, gormFirst, hnone2]
  · intro x hx hxid
    unfold listedTodos at hx
    have h1 := List.mem_filter.mp hx
    exact hnm x h1.1 ⟨hxid, by simpa [Option.isNone_iff_eq_none] using h1.2⟩

/-- Claim C3, witness: deleting the live demo row (id 1) returns 204 with an
empty body, and deleting it again returns 404. -/
theorem C3_witness :
    (DeleteTodo demoRows 5 todoA.id false).fst = ⟨204, RespBody.empty⟩
    ∧ (DeleteTodo (softDelete demoRows todoA.id 5) 6 todoA.id false).fst.status = 404 :=
  ⟨(C3_delete_contract demoRows todoA 5 6 (by decide) rfl).1,
   (C3_delete_contract demoRows todoA 5 6 (by decide) rfl).2.2.2.1⟩

/-! Claim C4. -/

/-- Claim C4: a list request without a storage failure answers 200 with the
array of exactly the non-deleted rows (membership characterised below), and
when every row is deleted (in particular when none exist) that array is
empty. -/
theorem C4_list_contract (rows : List Todo) :
    (GetTodos rows false).fst = ⟨200, RespBody.items (listedTodos rows)⟩
    ∧ (∀ x, x ∈ listedTodos rows ↔ x ∈ rows ∧ x.deletedAt = none)
    ∧ ((∀ x ∈ rows, x.deletedAt ≠ none) → listedTodos rows = []) := by
  refine ⟨rfl, ?_, ?_⟩
  · intro x
    unfold listedTodos
    rw [List.mem_filter]
    simp [Option.isNone_iff_eq_none]
  · intro h
    unfold listedTodos
    rw [List.filter_eq_nil_iff]
    intro a ha
    simp [Option.isNone_iff_eq_none, h a ha]

/-- Claim C4, witness: on the demo store the list response is 200 with
exactly the live row, and a store of deleted rows lists as the empty
array. -/
theorem C4_witness :
    (GetTodos demoRows false).fst = ⟨200, RespBody.items (listedTodos demoRows)⟩
    ∧ todoA ∈ listedTodos demoRows
    ∧ listedTodos [todoB] = [] :=
  ⟨(C4_list_contract demoRows).1,
   ((C4_list_contract demoRows).2.1 todoA).mpr ⟨by decide, rfl⟩,
   (C4_list_contract [todoB]).2.2 (by decide)⟩

/-! Claim C5. -/

/-- Claim C5, counterexample: a create request whose well-formed body supplies
`id: 5` on an empty store is inserted with id 5, the id taken from the request
body, while the store would have assigned id 1. -/
theorem C5_counterexample :
    (CreateTodo [] 1 (some { id? := some 5, title? := some "x" }) false).fst
      = ⟨201, RespBody.item { id := 5, createdAt := 1, updatedAt := 1,
                              deletedAt := none, title := "x", description := "",
                              completed := false }⟩
    ∧ nextId [] = 1 := by
  decide

/-- Claim C5 (amended): for every create request with a well-formed JSON body
that does not supply a non-zero id, the created record's id is assigned by
the store (one more than the largest stored id, hence fresh), and the
response is 201 carrying that id and non-zero created_at/updated_at
timestamps, the record being appended to the store. -/
theorem C5_create_assigns_id (rows : List Todo) (b : TodoBody) (now : Nat)
    (hid : b.id? = none ∨ b.id? = some 0) (hnow : 0 < now) :
    ∃ created : Todo,
      (CreateTodo rows now (some b) false).fst = ⟨201, RespBody.item created⟩
      ∧ (CreateTodo rows now (some b) false).snd = rows ++ [created]
      ∧ created.id = nextId rows
      ∧ created.id ∉ rows.map Todo.id
      ∧ 0 < created.createdAt
      ∧ 0 < created.updatedAt := by
  have hid0 : (decodeTodo b).id = 0 := by
    rcases hid with h | h <;> simp [decodeTodo, h]
  have hfresh := nextId_not_mem rows
  refine ⟨{ decodeTodo b with
            id := nextId rows,
            createdAt := if (decodeTodo b).createdAt = 0 then now
                         else (decodeTodo b).createdAt,
            updatedAt := if (decodeTodo b).updatedAt = 0 then now
                         else (decodeTodo b).updatedAt }, ?_, ?_, rfl, hfresh, ?_, ?_⟩
  · simp [CreateTodo, hid0, hfresh]
  · simp [CreateTodo, hid0, hfresh]
  · by_cases h : (decodeTodo b).createdAt = 0
    · simpa [h] using hnow
    · simpa [h] using Nat.pos_of_ne_zero h
  · by_cases h : (decodeTodo b).updatedAt = 0
    · simpa [h] using hnow
    · simpa [h] using Nat.pos_of_ne_zero h

/-- Claim C5, witness: creating from an empty body at time 1 on the empty
store yields a 201 whose record has the store-assigned id and non-zero
timestamps. -/
theorem C5_witness :
    ∃ created : Todo,
      (CreateTodo [] 1 (some {}) false).fst = ⟨201, RespBody.item created⟩
      ∧ (CreateTodo [] 1 (some {}) false).snd = [] ++ [created]
      ∧ created.id = nextId []
      ∧ created.id ∉ ([] : List Todo).map Todo.id
      ∧ 0 < created.createdAt
      ∧ 0 < created.updatedAt :=
  C5_create_assigns_id [] {} 1 (Or.inl rfl) (by decide)

/-! Claim C6. -/

/-- Claim C6: get-by-id answers 404 when no non-deleted record with the id
exists, 500 when the lookup hits a storage failure, and otherwise 200 with
the record found as a JSON object. -/
theorem C6_get_by_id_contract (rows : List Todo) (id : Nat) :
    ((∀ r ∈ rows, ¬(r.id = id ∧ r.deletedAt = none)) →
      (GetTodoByID rows id false).fst = ⟨404, RespBody.err "Todo item not found."⟩)
    ∧ (GetTodoByID rows id true).fst
        = ⟨500, RespBody.err "Failed to retrieve Todo item from database."⟩
    ∧ (∀ t, findByID rows id = some t →
        (GetTodoByID rows id false).fst = ⟨200, RespBody.item t⟩) := by
  refine ⟨?_, by simp [GetTodoByID, gormFirst], ?_⟩
  · intro h
    simp [GetTodoByID, gormFirst, findByID_eq_none_iff.mpr h]
  · intro t ht
    simp [GetTodoByID, gormFirst, ht]

/-- Claim C6, witness: on the demo store, id 2 (soft-deleted) answers 404,
id 1 answers 200 with the record, and a storage failure answers 500. -/
theorem C6_witness :
    (GetTodoByID demoRows 2 false).fst = ⟨404, RespBody.err "Todo item not found."⟩
    ∧ (GetTodoByID demoRows 1 false).fst = ⟨200, RespBody.item todoA⟩
    ∧ (GetTodoByID demoRows 1 true).fst
        = ⟨500, RespBody.err "Failed to retrieve Todo item from database."⟩ :=
  ⟨(C6_get_by_id_contract demoRows 2).1 (by decide),
   (C6_get_by_id_contract demoRows 1).2.2 todoA (by decide),
   (C6_get_by_id_contract demoRows 1).2.1⟩

/-! Claim C7. -/

/-- Claim C7: the update handler looks the record up before decoding the
body, so an id with no matching non-deleted record answers 404 whatever the
body (well-formed or not), and a malformed body answers 400 precisely in the
case a record was found. -/
theorem C7_lookup_before_decode (rows : List Todo) (id now : Nat) (fU f2 : Bool) :
    ((∀ r ∈ rows, ¬(r.id = id ∧ r.deletedAt = none)) →
      ∀ body : Option TodoBody,
        (UpdateTodo rows now id body false fU f2).fst
          = ⟨404, RespBody.err "Todo item not found."⟩)
    ∧ (∀ t, findByID rows id = some t →
        (UpdateTodo rows now id none false fU f2).fst
          = ⟨400, RespBody.err "Invalid input data."⟩) := by
  constructor
  · intro h body
    simp [UpdateTodo, gormFirst, findByID_eq_none_iff.mpr h]
  · intro t ht
    simp [UpdateTodo, gormFirst, ht]

/-- Claim C7, witness: a PUT to the absent id 9 with a malformed body answers
404, while a malformed body on the existing id 1 answers 400. -/
theorem C7_witness :
    (UpdateTodo demoRows 9 9 none false false false).fst
      = ⟨404, RespBody.err "Todo item not found."⟩
    ∧ (UpdateTodo demoRows 9 1 none false false false).fst
      = ⟨400, RespBody.err "Invalid input data."⟩ :=
  ⟨(C7_lookup_before_decode demoRows 9 9 false false).1 (by decide) none,
   (C7_lookup_before_decode demoRows 1 9 false false).2 todoA (by decide)⟩

/-! Claim C8. -/

/-- Claim C8: every serialized TodoItem (the objects rendered for the item
bodies of create, get-by-id and update, and for each element of a list body)
emits exactly the keys id, created_at, updated_at, title, description and
completed, and never a deleted_at key. -/
theorem C8_json_shape (t : Todo) (l : List Todo) :
    (todoJSON t).map Prod.fst
      = ["id", "created_at", "updated_at", "title", "description", "completed"]
    ∧ "deleted_at" ∉ (todoJSON t).map Prod.fst
    ∧ renderBody (RespBody.item t) = Json.obj (todoJSON t)
    ∧ renderBody (RespBody.items l) = Json.arr (l.map (fun x => Json.obj (todoJSON x))) := by
  refine ⟨rfl, ?_, rfl, rfl⟩
  intro h
  simp [todoJSON] at h

/-- Claim C8, witness: the demo record serializes to exactly the six
documented keys. -/
theorem C8_witness :
    (todoJSON todoA).map Prod.fst
      = ["id", "created_at", "updated_at", "title", "description", "completed"] :=
  (C8_json_shape todoA []).1

/-! Claim C9. -/

/-- Claim C9: list and get-by-id leave the store untouched in every case
(fault or not), and create, update and delete leave it untouched whenever
they do not answer their success status (201, 200, 204 respectively), so only
successful mutations change persistent state. -/
theorem C9_reads_pure (rows : List Todo) (id now : Nat) (f fU f2 : Bool)
    (body : Option TodoBody) :
    (GetTodos rows f).snd = rows
    ∧ (GetTodoByID rows id f).snd = rows
    ∧ ((CreateTodo rows now body f).fst.status ≠ 201 →
        (CreateTodo rows now body f).snd = rows)
    ∧ ((UpdateTodo rows now id body f fU f2).fst.status ≠ 200 →
        (UpdateTodo rows now id body f fU f2).snd = rows)
    ∧ ((DeleteTodo rows now id f).fst.status ≠ 204 →
        (DeleteTodo rows now id f).snd = rows) := by
  refine ⟨?_, ?_, ?_, ?_, ?_⟩
  · cases f <;> rfl
  · cases h : gormFirst f rows id with
    | error e => cases e <;> simp [GetTodoByID, h]
    | ok t => simp [GetTodoByID, h]
  · intro hne
    cases body with
    | none => rfl
    | some b =>
      by_cases hc : f = true ∨
          (if (decodeTodo b).id = 0 then nextId rows else (decodeTodo b).id)
            ∈ rows.map Todo.id
      · simp only [CreateTodo]
        rw [if_pos hc]
      · exact absurd (by simp only [CreateTodo]; rw [if_neg hc]) hne
  · intro hne
    cases h : gormFirst f rows id with
    | error e => cases e <;> simp [UpdateTodo, h]
    | ok t =>
      cases body with
      | none => simp [UpdateTodo, h]
      | some b => exact absurd (by simp [UpdateTodo, h]) hne
  · intro hne
    cases f with
    | true => rfl
    | false =>
      by_cases h0 : rowsAffected rows id = 0
      · simp [DeleteTodo, h0]
      · exact absurd (by simp [DeleteTodo, h0]) hne

/-- Claim C9, witness: reads on the demo store leave it unchanged, and a
failed create (malformed body) and failed delete (absent id) leave it
unchanged too. -/
theorem C9_witness :
    (GetTodos demoRows false).snd = demoRows
    ∧ (GetTodoByID demoRows 1 false).snd = demoRows
    ∧ (CreateTodo demoRows 9 none false).snd = demoRows
    ∧ (DeleteTodo demoRows 9 5 false).snd = demoRows :=
  ⟨(C9_reads_pure demoRows 1 9 false false false none).1,
   (C9_reads_pure demoRows 1 9 false false false none).2.1,
   (C9_reads_pure demoRows 1 9 false false false none).2.2.1 (by decide),
   (C9_reads_pure demoRows 5 9 false false false none).2.2.2.2 (by decide)⟩

/-! Claim C10. -/

/-- Claim C10: once the update handler's initial lookup succeeds and the body
decodes, the response status is 200 for every outcome of the unchecked
Updates statement and re-fetch; in particular when the Updates statement
fails the store is left unchanged while the handler still answers 200 with
some serialized item, so the 200 body need not reflect a persisted update. -/
theorem C10_update_ignores_tail_failures (rows : List Todo) (id now : Nat)
    (b : TodoBody) (t : Todo) (fU f2 : Bool)
    (hfound : findByID rows id = some t) :
    (UpdateTodo rows now id (some b) false fU f2).fst.status = 200
    ∧ (fU = true → (UpdateTodo rows now id (some b) false fU f2).snd = rows)
    ∧ ∃ shown, (UpdateTodo rows now id (some b) false fU f2).fst.body
        = RespBody.item shown := by
  have hgf : gormFirst false rows id = Except.ok t := by
    unfold gormFirst; rw [hfound]; rfl
  refine ⟨by simp [UpdateTodo, hgf], ?_, ?_⟩
  · intro h
    simp [UpdateTodo, hgf, h]
  · cases h2 : gormFirst f2
        (if fU = true then rows else gormUpdates rows t.id (decodeTodo b) now) id with
    | ok u => exact ⟨u, by simp [UpdateTodo, hgf, h2]⟩
    | error e => exact ⟨t, by simp [UpdateTodo, hgf, h2]⟩

/-- Claim C10, witness: with the Updates statement failing (its error
ignored by the handler), PUT on the existing id 1 still answers 200 and the
store is unchanged. -/
theorem C10_witness :
    (UpdateTodo [todoA] 5 1 (some {}) false true false).fst.status = 200
    ∧ (UpdateTodo [todoA] 5 1 (some {}) false true false).snd = [todoA] :=
  ⟨(C10_update_ignores_tail_failures [todoA] 1 5 {} todoA true false (by decide)).1,
   (C10_update_ignores_tail_failures [todoA] 1 5 {} todoA true false (by decide)).2.1 rfl⟩
